import Mathlib

/-
Shallow embedding of the slot-availability and booking core of the
turf-booking backend (models/Booking.js, the Turf model, the booking
controllers, the payment controller and the server-side lifecycle sweep).

Modelling conventions:
* Calendar dates are day indices (Nat); `toDateString` equality on JS Date
  objects becomes equality of day indices.  The JS `getDay()` weekday of a
  date is the index modulo 7 with 0 = Sunday.
* Wall-clock time strings such as "18:00" or "6:30 PM" are modelled by the
  structure `ClockTime` holding the parsed hour/minute components and the
  optional AM/PM suffix; the three distinct parsers the source applies to
  such strings (the Turf helper parseTimeToMinutes, the naive split(":")
  parse, and new Date("2000-01-01 " + t)) are modelled separately below.
* JS numbers holding money and durations are modelled by Rat.
* Mongo object ids are modelled by Nat.
* Fallible operations (JS throw) return Except String.
-/

namespace TurfBack

inductive Meridiem
  | am
  | pm
deriving DecidableEq, Repr

/-- Parsed form of a wall-clock time string: hour and minute components plus
the optional AM/PM suffix present in the string. -/
structure ClockTime where
  h : Nat
  m : Nat
  mer : Option Meridiem
deriving DecidableEq, Repr

/-- Model of TurfSchema.methods.parseTimeToMinutes: strips the AM/PM suffix,
takes hours*60+minutes, then adds 12h for PM (unless hour = 12) and
subtracts 12h for 12 AM. -/
def parseTimeToMinutes (t : ClockTime) : Nat :=
  let total := t.h * 60 + t.m
  match t.mer with
  | some Meridiem.pm => if t.h ≠ 12 then total + 720 else total
  | some Meridiem.am => if t.h = 12 then total - 720 else total
  | none => total

/-- Model of the naive `startTime.split(":")` + parseInt parse used by
Booking.canBeCancelled and the lifecycle sweep: the AM/PM suffix is ignored
(parseInt of "30 PM" is 30). -/
def splitClockMinutes (t : ClockTime) : Int :=
  (t.h : Int) * 60 + (t.m : Int)

/-- Conversion of a 12-hour clock hour with meridiem to the 24-hour hour, as
performed by the JS Date parser. -/
def hour24 (h : Nat) (m : Meridiem) : Nat :=
  match m with
  | Meridiem.am => if h = 12 then 0 else h
  | Meridiem.pm => if h = 12 then 12 else h + 12

/-- Model of `new Date("2000-01-01 " + t)` in the Booking pre-validate hook:
minutes since midnight when the string is a valid time (hours 0-23 without a
suffix, 1-12 with one), none when the Date is invalid (NaN). -/
def jsDateMinutes (t : ClockTime) : Option Int :=
  match t.mer with
  | none =>
      if t.h ≤ 23 ∧ t.m ≤ 59 then some ((t.h : Int) * 60 + (t.m : Int)) else none
  | some mer =>
      if 1 ≤ t.h ∧ t.h ≤ 12 ∧ t.m ≤ 59 then
        some ((hour24 t.h mer : Int) * 60 + (t.m : Int))
      else none

inductive BookingStatus
  | confirmed
  | in_progress
  | pending
  | cancelled
  | completed
  | noShow
deriving DecidableEq, Repr

inductive PaymentStatus
  | pending
  | paid
  | partialPaid
  | refunded
  | failed
deriving DecidableEq, Repr

inductive PaymentMethod
  | cash
  | card
  | upi
  | bank_transfer
  | online
deriving DecidableEq, Repr

inductive BookingType
  | online
  | offline
  | walkIn
deriving DecidableEq, Repr

/-- Booking ledger document (models/Booking.js).  `hasCustomerEmail` models
whether customerInfo.email is a non-empty string. -/
structure Booking where
  turfId : Nat
  ownerId : Nat
  customerId : Option Nat
  hasCustomerEmail : Bool
  bookingDate : Nat
  startTime : ClockTime
  endTime : ClockTime
  duration : Rat
  pricePerHour : Rat
  totalAmount : Rat
  paymentAmount : Rat
  status : BookingStatus
  paymentStatus : PaymentStatus
  paymentMethod : PaymentMethod
  bookingType : BookingType
  bookingCode : Nat
  razorpayOrderId : Option Nat
  razorpayPaymentId : Option Nat
  razorpaySignature : Option Nat
  paidAt : Option Int
  reviewEmailSent : Bool
  cancellationReason : Option String
  cancelledAt : Option Int
  cancelledBy : Option Nat
deriving DecidableEq, Repr

/-- Model of BookingSchema.pre("validate"): when startTime, endTime and
pricePerHour are present, recompute duration (minutes between the two parsed
instants on 2000-01-01) and totalAmount = (minutes/60) * pricePerHour.  In
this embedding the three fields are always present (every creation path in
the controllers supplies them), so the JS presence guard is always taken;
the branch where the Date parse fails (NaN propagation) is modelled as
leaving the derived fields unchanged and is outside every theorem below. -/
def preValidate (b : Booking) : Booking :=
  match jsDateMinutes b.startTime, jsDateMinutes b.endTime with
  | some s, some e =>
      { b with
          duration := ((e : Rat) - (s : Rat)),
          totalAmount := (((e : Rat) - (s : Rat)) / 60) * b.pricePerHour }
  | _, _ => b

/-- The schema-level min validators relevant to the booking core:
pricePerHour, totalAmount and paymentAmount must be non-negative. -/
def bookingValidates (b : Booking) : Bool :=
  decide (0 ≤ b.pricePerHour) && decide (0 ≤ b.totalAmount) &&
    decide (0 ≤ b.paymentAmount)

/-- Model of Booking.create / document save: run the pre-validate hook, then
the validators; the document persists exactly when validation passes. -/
def createValidates (b : Booking) : Option Booking :=
  let c := preValidate b
  if bookingValidates c then some c else none

/-- Absolute start instant of a booking in minutes, as computed by
canBeCancelled and the sweep: midnight of bookingDate plus the naive
split(":") parse of startTime. -/
def slotStartInstant (b : Booking) : Int :=
  (b.bookingDate : Int) * 1440 + splitClockMinutes b.startTime

/-- Absolute end instant of a booking in minutes (lifecycle sweep). -/
def slotEndInstant (b : Booking) : Int :=
  (b.bookingDate : Int) * 1440 + splitClockMinutes b.endTime

/-- Model of BookingSchema.methods.canBeCancelled: false when status is
cancelled or completed; otherwise true iff the booking start is at least two
hours (120 minutes) after now. -/
def Booking.canBeCancelled (b : Booking) (now : Int) : Bool :=
  if b.status = BookingStatus.cancelled ∨ b.status = BookingStatus.completed then
    false
  else
    decide (120 ≤ slotStartInstant b - now)

/-- Model of BookingSchema.methods.cancelBooking: throws when canBeCancelled
fails, otherwise stamps the cancellation fields and saves (the save re-runs
the pre-validate hook). -/
def Booking.cancelBooking (b : Booking) (now : Int) (actor : Nat)
    (reason : String) : Except String Booking :=
  if b.canBeCancelled now then
    Except.ok (preValidate
      { b with
          status := BookingStatus.cancelled,
          cancellationReason := some reason,
          cancelledAt := some now,
          cancelledBy := some actor })
  else
    Except.error "Booking cannot be cancelled"

/-- One slot definition inside a weekday template (Turf schema
availableSlots.<day>.slots entries), including the denormalized per-date
binding state isBooked / bookedBy / bookingDate. -/
structure SlotDef where
  startTime : ClockTime
  endTime : ClockTime
  price : Rat
  isBooked : Bool
  bookedBy : Option Nat
  bookingDate : Option Nat
deriving DecidableEq, Repr

/-- One weekday entry of the availableSlots template map. -/
structure DaySlots where
  isOpen : Bool
  slots : List SlotDef
deriving DecidableEq, Repr

/-- Turf document: owner, base hourly price, and the weekday template map.
The map is stored as a list indexed by JS getDay() weekday (0 = Sunday);
an out-of-range lookup models an undefined key. -/
structure Turf where
  ownerId : Nat
  pricePerHour : Rat
  week : List DaySlots
deriving DecidableEq, Repr

/-- Weekday of a calendar day index, as JS Date.getDay() (0 = Sunday). -/
def weekdayOfDate (d : Nat) : Nat := d % 7

/-- Lookup availableSlots[dayOfWeek]. -/
def Turf.getDay (t : Turf) (day : Nat) : Option DaySlots :=
  t.week.get? day

/-- Replace the weekday entry at index day. -/
def Turf.setDay (t : Turf) (day : Nat) (ds : DaySlots) : Turf :=
  { t with week := t.week.set day ds }

/-- The predicate used by every slots.find call in the Turf methods: exact
match on the startTime and endTime strings. -/
def slotMatches (s e : ClockTime) (sl : SlotDef) : Bool :=
  decide (sl.startTime = s) && decide (sl.endTime = e)

/-- Mutate the first element of the list satisfying p, as the JS methods do
by assigning to the object returned by Array.prototype.find. -/
def updateFirst (p : SlotDef → Bool) (f : SlotDef → SlotDef) :
    List SlotDef → List SlotDef
  | [] => []
  | sl :: rest => if p sl then f sl :: rest else sl :: updateFirst p f rest

/-- The binding assignment performed by bookSlot on the found slot. -/
def setSlotBinding (date userId : Nat) (x : SlotDef) : SlotDef :=
  { x with isBooked := true, bookedBy := some userId, bookingDate := some date }

/-- The binding clear performed by cancelSlotBooking on the found slot. -/
def clearSlotBinding (x : SlotDef) : SlotDef :=
  { x with isBooked := false, bookedBy := none, bookingDate := none }

/-- Model of TurfSchema.methods.isSlotAvailable: false when the weekday
entry is missing or closed or the slot is not defined; otherwise the slot is
available unless its binding flag is set with a bound date equal to the
queried date. -/
def Turf.isSlotAvailable (t : Turf) (date : Nat) (day : Nat)
    (s e : ClockTime) : Bool :=
  match t.getDay day with
  | none => false
  | some ds =>
    if !ds.isOpen then false
    else
      match ds.slots.find? (slotMatches s e) with
      | none => false
      | some sl =>
        !sl.isBooked ||
          (match sl.bookingDate with
           | some d => decide (d ≠ date)
           | none => false)

/-- Model of TurfSchema.methods.bookSlot: throws when the day is closed, the
slot is undefined, or the slot is already bound to the same date; otherwise
sets the binding (isBooked, bookedBy, bookingDate) on the matching slot. -/
def Turf.bookSlot (t : Turf) (date : Nat) (day : Nat) (s e : ClockTime)
    (userId : Nat) : Except String Turf :=
  match t.getDay day with
  | none => Except.error "Turf is closed on this day"
  | some ds =>
    if !ds.isOpen then Except.error "Turf is closed on this day"
    else
      match ds.slots.find? (slotMatches s e) with
      | none => Except.error "Slot not found"
      | some sl =>
        if sl.isBooked ∧ sl.bookingDate = some date then
          Except.error "Slot is already booked for this date"
        else
          Except.ok (t.setDay day
            { ds with
                slots := updateFirst (slotMatches s e)
                  (setSlotBinding date userId) ds.slots })

/-- Model of TurfSchema.methods.cancelSlotBooking: throws when the day entry
is missing, the slot is undefined, or the slot is not currently bound to the
given date; otherwise clears the binding on the matching slot. -/
def Turf.cancelSlotBooking (t : Turf) (date : Nat) (day : Nat)
    (s e : ClockTime) : Except String Turf :=
  match t.getDay day with
  | none => Except.error "Invalid day"
  | some ds =>
    match ds.slots.find? (slotMatches s e) with
    | none => Except.error "Slot not found"
    | some sl =>
      if !sl.isBooked ∨ sl.bookingDate = none ∨ sl.bookingDate ≠ some date then
        Except.error "No booking found for this slot on this date"
      else
        Except.ok (t.setDay day
          { ds with
              slots := updateFirst (slotMatches s e) clearSlotBinding ds.slots })

/-- Wall-clock now: current day index and minutes since its midnight. -/
structure Now where
  date : Nat
  minute : Nat
deriving DecidableEq, Repr

/-- Model of TurfSchema.methods.getAvailableSlots: empty when the weekday is
missing or closed; otherwise the template slots minus those bound to the
queried date, and minus (when the date is today) those whose parsed start
time is not after the current minutes. -/
def Turf.getAvailableSlots (t : Turf) (date : Nat) (now : Now) :
    List SlotDef :=
  match t.getDay (weekdayOfDate date) with
  | none => []
  | some ds =>
    if !ds.isOpen then []
    else
      ds.slots.filter (fun sl =>
        let bookedForThisDate :=
          sl.isBooked &&
            (match sl.bookingDate with
             | some d => decide (d = date)
             | none => false)
        if bookedForThisDate then false
        else if date = now.date then
          decide (now.minute < parseTimeToMinutes sl.startTime)
        else true)

/-- The persistent store as the booking controllers see it: a single turf
document (the claims all concern one resource, whose object id is modelled
as 0) and the booking collection. -/
structure DB where
  turf : Turf
  bookings : List Booking
deriving DecidableEq, Repr

/-- Slot-booking request parameters (date, startTime, endTime). -/
structure BookingReq where
  date : Nat
  startTime : ClockTime
  endTime : ClockTime
deriving DecidableEq, Repr

/-- Model of the JS short-circuit fallback x || y on numbers: 0 and
undefined are falsy. -/
def jsNumOr (x : Option Rat) (fallback : Rat) : Rat :=
  match x with
  | some v => if v = 0 then fallback else v
  | none => fallback

/-- Instant (minutes since the epoch midnight) of a wall-clock Now. -/
def nowInstant (n : Now) : Int :=
  (n.date : Int) * 1440 + (n.minute : Int)

/-- The booking document the online controller passes to Booking.create
(authController.createBooking): status confirmed, paymentStatus pending,
bookingType online; the price is the slot price, falling back to the turf
base price when the slot price is 0. -/
def mkOnlineBooking (t : Turf) (uid : Nat) (userEmail : Bool)
    (q : BookingReq) (price : Rat) (method : PaymentMethod) : Booking :=
  { turfId := 0
    ownerId := t.ownerId
    customerId := some uid
    hasCustomerEmail := userEmail
    bookingDate := q.date
    startTime := q.startTime
    endTime := q.endTime
    duration := 0
    pricePerHour := price
    totalAmount := 0
    paymentAmount := 0
    status := BookingStatus.confirmed
    paymentStatus := PaymentStatus.pending
    paymentMethod := method
    bookingType := BookingType.online
    bookingCode := 0
    razorpayOrderId := none
    razorpayPaymentId := none
    razorpaySignature := none
    paidAt := none
    reviewEmailSent := false
    cancellationReason := none
    cancelledAt := none
    cancelledBy := none }

/-- Validation phase of authController.createBooking for one slot, run
against the turf snapshot loaded by Turf.findById: weekday open, slot
defined, not a passed slot of today, and the single-slot availability check;
on success, the booking document to be created. -/
def onlineCheck (t : Turf) (now : Now) (uid : Nat) (userEmail : Bool)
    (method : PaymentMethod) (q : BookingReq) : Except String Booking :=
  let day := weekdayOfDate q.date
  match t.getDay day with
  | none => Except.error "No slots available on this day"
  | some ds =>
    if !ds.isOpen then Except.error "No slots available on this day"
    else
      match ds.slots.find? (slotMatches q.startTime q.endTime) with
      | none => Except.error "Selected slot is not available"
      | some sl =>
        if q.date = now.date ∧ parseTimeToMinutes q.startTime ≤ now.minute then
          Except.error "Cannot book slots that have already passed"
        else if !(t.isSlotAvailable q.date day q.startTime q.endTime) then
          Except.error "One or more selected slots are already booked"
        else
          Except.ok (mkOnlineBooking t uid userEmail q
            (if sl.price = 0 then t.pricePerHour else sl.price) method)

/-- Persistence phase shared by the online and offline booking controllers:
Booking.create persists the (validated) booking first, then bookSlot flips
the binding on the caller's turf snapshot, then turf.save overwrites the
stored turf with that snapshot.  When bookSlot throws, the booking row
stays persisted (the controllers do not roll it back). -/
def commitBooking (db : DB) (snap : Turf) (q : BookingReq) (doc : Booking) :
    DB × Except String Booking :=
  match createValidates doc with
  | none => (db, Except.error "Booking validation failed")
  | some b =>
    let db1 : DB := { db with bookings := db.bookings ++ [b] }
    match snap.bookSlot q.date (weekdayOfDate q.date) q.startTime q.endTime
        db.bookings.length with
    | Except.error e => (db1, Except.error e)
    | Except.ok t2 => ({ db1 with turf := t2 }, Except.ok b)

/-- Full sequential run of authController.createBooking for a single slot:
load the turf, validate against it, persist, flip the binding, save. -/
def createBookingOnline (db : DB) (now : Now) (uid : Nat) (userEmail : Bool)
    (method : PaymentMethod) (q : BookingReq) : DB × Except String Booking :=
  match onlineCheck db.turf now uid userEmail method q with
  | Except.error e => (db, Except.error e)
  | Except.ok doc => commitBooking db db.turf q doc

/-- Interleaved execution of two concurrent createBooking requests on the
same store in which both requests load the turf before either one writes
(the schedule load1, load2, commit1, commit2).  Each request validates and
flips the binding against its own stale snapshot, exactly as the controller
does between its Turf.findById and its turf.save. -/
def raceBothRead (db0 : DB) (now : Now) (u1 u2 : Nat) (q : BookingReq) :
    DB × (Except String Booking × Except String Booking) :=
  let c1 := onlineCheck db0.turf now u1 true PaymentMethod.online q
  let c2 := onlineCheck db0.turf now u2 true PaymentMethod.online q
  match c1 with
  | Except.error e1 =>
    match c2 with
    | Except.error e2 => (db0, (Except.error e1, Except.error e2))
    | Except.ok d2 =>
      let r2 := commitBooking db0 db0.turf q d2
      (r2.1, (Except.error e1, r2.2))
  | Except.ok d1 =>
    let r1 := commitBooking db0 db0.turf q d1
    match c2 with
    | Except.error e2 => (r1.1, (r1.2, Except.error e2))
    | Except.ok d2 =>
      let r2 := commitBooking r1.1 db0.turf q d2
      (r2.1, (r1.2, r2.2))

/-- Count of non-cancelled bookings stored for a given
(resource, date, startTime, endTime) tuple. -/
def activeBookingsFor (db : DB) (q : BookingReq) : Nat :=
  (db.bookings.filter (fun b =>
    decide (b.bookingDate = q.date) && decide (b.startTime = q.startTime) &&
      decide (b.endTime = q.endTime) &&
      decide (b.status ≠ BookingStatus.cancelled))).length

/-- The booking document the offline controller passes to Booking.create
(turfController.bookSlot): no customerId, bookingType offline, cash. -/
def mkOfflineBooking (t : Turf) (custEmail : Bool) (q : BookingReq)
    (price : Rat) : Booking :=
  { turfId := 0
    ownerId := t.ownerId
    customerId := none
    hasCustomerEmail := custEmail
    bookingDate := q.date
    startTime := q.startTime
    endTime := q.endTime
    duration := 0
    pricePerHour := price
    totalAmount := 0
    paymentAmount := 0
    status := BookingStatus.confirmed
    paymentStatus := PaymentStatus.pending
    paymentMethod := PaymentMethod.cash
    bookingType := BookingType.offline
    bookingCode := 0
    razorpayOrderId := none
    razorpayPaymentId := none
    razorpaySignature := none
    paidAt := none
    reviewEmailSent := false
    cancellationReason := none
    cancelledAt := none
    cancelledBy := none }

/-- Model of turfController.bookSlot (owner walk-in booking): rejects any
date other than today before anything else, authorizes the owner, rejects
already-passed start times, checks availability, then persists and binds
like the online flow.  priceArg is the optional price field of the
request body. -/
def bookSlotOffline (db : DB) (now : Now) (reqUser : Nat)
    (custEmail : Bool) (priceArg : Option Rat) (q : BookingReq) :
    DB × Except String Booking :=
  if q.date ≠ now.date then
    (db, Except.error "Offline bookings are allowed only for today")
  else if db.turf.ownerId ≠ reqUser then
    (db, Except.error "Not authorized to book slots for this turf")
  else if parseTimeToMinutes q.startTime ≤ now.minute then
    (db, Except.error "Cannot book slots that have already passed")
  else
    let day := weekdayOfDate q.date
    if !(db.turf.isSlotAvailable q.date day q.startTime q.endTime) then
      (db, Except.error "Slot is not available for booking")
    else
      match db.turf.getDay day with
      | none => (db, Except.error "Slot is not available for booking")
      | some ds =>
        match ds.slots.find? (slotMatches q.startTime q.endTime) with
        | none => (db, Except.error "Slot is not available for booking")
        | some sl =>
          commitBooking db db.turf q
            (mkOfflineBooking db.turf custEmail q
              (jsNumOr priceArg
                (if sl.price = 0 then db.turf.pricePerHour else sl.price)))

/-- Model of authController.checkInBooking: look the booking up by its
short code, authorize the resource owner, optionally cross-check turf and
date, then set status to in_progress and save.  The current status is not
consulted. -/
def checkInBooking (bookings : List Booking) (reqUser : Nat) (code : Nat)
    (turfArg : Option Nat) (dateArg : Option Nat) : Except String Booking :=
  match bookings.find? (fun b => decide (b.bookingCode = code)) with
  | none => Except.error "Booking not found"
  | some b =>
    if b.ownerId ≠ reqUser then
      Except.error "Not authorized to check in this booking"
    else
      match turfArg with
      | some tid =>
        if b.turfId ≠ tid then
          Except.error "Booking does not belong to this turf"
        else
          match dateArg with
          | some d =>
            if b.bookingDate ≠ d then
              Except.error "Booking is not for the selected date"
            else Except.ok (preValidate { b with status := BookingStatus.in_progress })
          | none => Except.ok (preValidate { b with status := BookingStatus.in_progress })
      | none =>
        match dateArg with
        | some d =>
          if b.bookingDate ≠ d then
            Except.error "Booking is not for the selected date"
          else Except.ok (preValidate { b with status := BookingStatus.in_progress })
        | none => Except.ok (preValidate { b with status := BookingStatus.in_progress })

/-- The query predicate of the lifecycle sweep in server.js: bookings with
status confirmed or in_progress. -/
def sweepCandidate (b : Booking) : Bool :=
  decide (b.status = BookingStatus.confirmed) ||
    decide (b.status = BookingStatus.in_progress)

/-- One run of the auto-status sweep body of server.js over the candidate
list, with the surrounding try/catch at the sweep level.  saveOk i tells
whether the status-update save of the booking at position i succeeds;
emailOk i tells whether the review email plus the reviewEmailSent save of
that booking succeed (those are wrapped in their own inner try/catch and
never abort).  A failing status save throws out of the for-loop into the
sweep-level catch: the failing booking keeps its stored state and every
later booking is left unvisited; the Bool of the result records that the
sweep aborted. -/
def sweepGo (now : Int) (saveOk emailOk : Nat → Bool) :
    Nat → List Booking → List Booking × Bool
  | _, [] => ([], false)
  | i, b :: rest =>
    if !(sweepCandidate b) then
      let r := sweepGo now saveOk emailOk (i + 1) rest
      (b :: r.1, r.2)
    else
      let s := slotStartInstant b
      let e := slotEndInstant b
      if s ≤ now ∧ now < e ∧ b.status ≠ BookingStatus.in_progress then
        if saveOk i then
          let r := sweepGo now saveOk emailOk (i + 1) rest
          (preValidate { b with status := BookingStatus.in_progress } :: r.1, r.2)
        else (b :: rest, true)
      else if e < now ∧ b.status ≠ BookingStatus.completed then
        if saveOk i then
          let b1 := preValidate { b with status := BookingStatus.completed }
          let b2 :=
            if !b1.reviewEmailSent && emailOk i then
              preValidate { b1 with reviewEmailSent := true }
            else b1
          let r := sweepGo now saveOk emailOk (i + 1) rest
          (b2 :: r.1, r.2)
        else (b :: rest, true)
      else
        let r := sweepGo now saveOk emailOk (i + 1) rest
        (b :: r.1, r.2)

/-- Entry point of one sweep tick over the stored bookings. -/
def sweepRun (now : Int) (saveOk emailOk : Nat → Bool)
    (bs : List Booking) : List Booking × Bool :=
  sweepGo now saveOk emailOk 0 bs

/-- A booking for which the sweep body at instant now issues a status-update
save: it is a query candidate and one of the two transition guards fires. -/
def needsStatusSave (now : Int) (b : Booking) : Prop :=
  sweepCandidate b = true ∧
    ((slotStartInstant b ≤ now ∧ now < slotEndInstant b ∧
        b.status ≠ BookingStatus.in_progress) ∨
      (slotEndInstant b < now ∧ b.status ≠ BookingStatus.completed))

instance (now : Int) (b : Booking) : Decidable (needsStatusSave now b) := by
  unfold needsStatusSave
  infer_instance

/-- Model of the verifyPayment controller after the booking lookup and
owner authorization: reject on signature mismatch without touching the
booking; otherwise set the payment fields, stamp paidAt with the current
time and save, unconditionally; the confirmation email (the Bool of the
result) is sent only when the booking was not already paid and the
requesting user has an email address. -/
def verifyPayment (sigMatches : Bool) (now : Int) (userHasEmail : Bool)
    (orderId paymentId signature : Nat) (b : Booking) :
    Except String (Booking × Bool) :=
  if !sigMatches then Except.error "Invalid payment signature"
  else
    let wasPaid := b.paymentStatus = PaymentStatus.paid
    Except.ok
      (preValidate
        { b with
            paymentStatus := PaymentStatus.paid,
            paymentMethod := PaymentMethod.online,
            razorpayPaymentId := some paymentId,
            razorpayOrderId := some orderId,
            razorpaySignature := some signature,
            paidAt := some now },
       !(decide wasPaid) && userHasEmail)

/-- Model of the payment.captured webhook helper: when the booking is not
already paid, set paymentStatus, store the payment id, stamp paidAt, save,
and attempt the confirmation email when customerInfo.email is present;
when already paid, do nothing. -/
def handlePaymentCaptured (now : Int) (paymentId : Nat) (b : Booking) :
    Booking × Bool :=
  if b.paymentStatus ≠ PaymentStatus.paid then
    (preValidate
      { b with
          paymentStatus := PaymentStatus.paid,
          razorpayPaymentId := some paymentId,
          paidAt := some now },
     b.hasCustomerEmail)
  else (b, false)

/-- A successful payment event for one order arriving on one of the two
channels: the synchronous verify call or the payment.captured webhook. -/
inductive PayEvent
  | verifyCall (now : Int) (userHasEmail : Bool) (orderId paymentId signature : Nat)
  | captured (now : Int) (paymentId : Nat)
deriving DecidableEq, Repr

/-- Application of one successful (signature-valid) payment event to the
located booking; the Bool says whether a confirmation email was sent. -/
def applyPayEvent (b : Booking) : PayEvent → Booking × Bool
  | PayEvent.verifyCall now ue o p s =>
    match verifyPayment true now ue o p s b with
    | Except.ok r => r
    | Except.error _ => (b, false)
  | PayEvent.captured now pid => handlePaymentCaptured now pid b

/-- Fold a sequence of payment-channel deliveries over a booking, counting
the confirmation emails sent. -/
def runPayEvents : Booking → List PayEvent → Booking × Nat
  | b, [] => (b, 0)
  | b, ev :: rest =>
    let r := applyPayEvent b ev
    let r2 := runPayEvents r.1 rest
    (r2.1, (if r.2 then 1 else 0) + r2.2)

/-
Concrete store used by the evaluation theorems: one turf owned by user 1,
base price 600, open on Mondays with the single template slot
18:00-19:00 priced 800; day indices are chosen so that index mod 7 is the
JS getDay weekday (8 and 15 are Mondays, 2 and 9 are Tuesdays).
-/

def slot1800 : SlotDef :=
  { startTime := ⟨18, 0, none⟩
    endTime := ⟨19, 0, none⟩
    price := 800
    isBooked := false
    bookedBy := none
    bookingDate := none }

def dayClosed : DaySlots := { isOpen := false, slots := [] }

def dayMonday : DaySlots := { isOpen := true, slots := [slot1800] }

def sampleTurf : Turf :=
  { ownerId := 1
    pricePerHour := 600
    week := [dayClosed, dayMonday, dayClosed, dayClosed, dayClosed, dayClosed, dayClosed] }

def sampleDB : DB := { turf := sampleTurf, bookings := [] }

def reqMon8 : BookingReq := { date := 8, startTime := ⟨18, 0, none⟩, endTime := ⟨19, 0, none⟩ }

def reqMon15 : BookingReq := { date := 15, startTime := ⟨18, 0, none⟩, endTime := ⟨19, 0, none⟩ }

def nowTue2 : Now := { date := 2, minute := 600 }

def nowWed9 : Now := { date := 9, minute := 600 }

/-- A stored confirmed booking for day 8, 10:00-11:00 at 800 per hour,
owned by user 1, customer 2, short code 1234. -/
def bk0 : Booking :=
  { turfId := 0
    ownerId := 1
    customerId := some 2
    hasCustomerEmail := true
    bookingDate := 8
    startTime := ⟨10, 0, none⟩
    endTime := ⟨11, 0, none⟩
    duration := 60
    pricePerHour := 800
    totalAmount := 800
    paymentAmount := 0
    status := BookingStatus.confirmed
    paymentStatus := PaymentStatus.pending
    paymentMethod := PaymentMethod.online
    bookingType := BookingType.online
    bookingCode := 1234
    razorpayOrderId := some 42
    razorpayPaymentId := none
    razorpaySignature := none
    paidAt := none
    reviewEmailSent := false
    cancellationReason := none
    cancelledAt := none
    cancelledBy := none }

def bkNoShow : Booking := { bk0 with status := BookingStatus.noShow }

def bkCancelled : Booking := { bk0 with status := BookingStatus.cancelled }

def bkPaid : Booking := { bk0 with paymentStatus := PaymentStatus.paid }

def slBound15 : SlotDef :=
  { slot1800 with isBooked := true, bookedBy := some 0, bookingDate := some 15 }

def dsBound15 : DaySlots := { isOpen := true, slots := [slBound15] }

/-- The turf after its Monday slot was bound by a booking for day 15. -/
def turfBound15 : Turf :=
  { sampleTurf with
      week := [dayClosed, dsBound15, dayClosed, dayClosed, dayClosed, dayClosed, dayClosed] }

/-- The turf after bookSlot bound the Monday slot to day 8 for booking 0. -/
def turfAfterBook8 : Turf :=
  sampleTurf.setDay 1
    { dayMonday with
        slots := updateFirst (slotMatches ⟨18, 0, none⟩ ⟨19, 0, none⟩)
          (setSlotBinding 8 0) dayMonday.slots }

def bkOvernight0 : Booking :=
  { bk0 with startTime := ⟨10, 0, none⟩, endTime := ⟨9, 0, none⟩, pricePerHour := 0 }

def bkOvernight5 : Booking :=
  { bk0 with startTime := ⟨10, 0, none⟩, endTime := ⟨9, 0, none⟩, pricePerHour := 5 }

/-- The two-step sequential scenario behind C2: book the Monday slot for
day 8, then book the same template slot for day 15. -/
def c2db1 : DB :=
  (createBookingOnline sampleDB nowTue2 7 true PaymentMethod.online reqMon8).1

def c2db2 : DB :=
  (createBookingOnline c2db1 nowTue2 9 true PaymentMethod.online reqMon15).1

/-- Outcome of the interleaved two-customer race on the Monday slot. -/
def c1raceOut : DB × (Except String Booking × Except String Booking) :=
  raceBothRead sampleDB nowTue2 7 9 reqMon8

/-- Duplicate verify deliveries for the same order at times 100 and 200. -/
def c4v1 : Booking × Bool :=
  applyPayEvent bk0 (PayEvent.verifyCall 100 true 42 5 6)

def c4v2 : Booking × Bool :=
  applyPayEvent c4v1.1 (PayEvent.verifyCall 200 true 42 5 6)

def sweepB2 : Booking := { bk0 with bookingCode := 2222 }

/-- Sweep run at instant 20000 (well past both bookings) in which the
status save of the first candidate fails. -/
def c9run : List Booking × Bool :=
  sweepRun 20000 (fun i => decide (i ≠ 0)) (fun _ => true) [bk0, sweepB2]

/-
Helper lemmas.
-/

theorem preValidate_status (b : Booking) : (preValidate b).status = b.status := by
  unfold preValidate
  cases jsDateMinutes b.startTime <;> cases jsDateMinutes b.endTime <;> rfl

theorem preValidate_paymentStatus (b : Booking) :
    (preValidate b).paymentStatus = b.paymentStatus := by
  unfold preValidate
  cases jsDateMinutes b.startTime <;> cases jsDateMinutes b.endTime <;> rfl

theorem preValidate_paidAt (b : Booking) : (preValidate b).paidAt = b.paidAt := by
  unfold preValidate
  cases jsDateMinutes b.startTime <;> cases jsDateMinutes b.endTime <;> rfl

theorem preValidate_cancelledAt (b : Booking) :
    (preValidate b).cancelledAt = b.cancelledAt := by
  unfold preValidate
  cases jsDateMinutes b.startTime <;> cases jsDateMinutes b.endTime <;> rfl

theorem preValidate_cancelledBy (b : Booking) :
    (preValidate b).cancelledBy = b.cancelledBy := by
  unfold preValidate
  cases jsDateMinutes b.startTime <;> cases jsDateMinutes b.endTime <;> rfl

theorem preValidate_pricePerHour (b : Booking) :
    (preValidate b).pricePerHour = b.pricePerHour := by
  unfold preValidate
  cases jsDateMinutes b.startTime <;> cases jsDateMinutes b.endTime <;> rfl

theorem get?_set_of_get?_some {α : Type} (l : List α) (i : Nat) (a x : α)
    (h : l.get? i = some x) : (l.set i a).get? i = some a := by
  induction l generalizing i with
  | nil => simp at h
  | cons hd tl ih =>
    cases i with
    | zero => rfl
    | succ j => simpa using ih j (by simpa using h)

theorem find?_updateFirst (p : SlotDef → Bool) (f : SlotDef → SlotDef)
    (l : List SlotDef) (x : SlotDef) (hfind : l.find? p = some x)
    (hf : p (f x) = true) :
    (updateFirst p f l).find? p = some (f x) := by
  induction l with
  | nil => simp at hfind
  | cons hd tl ih =>
    by_cases hp : p hd = true
    · rw [List.find?_cons_of_pos _ hp] at hfind
      cases hfind
      simp [updateFirst, hp, List.find?_cons_of_pos _ hf]
    · rw [List.find?_cons_of_neg _ (by simpa using hp)] at hfind
      simp [updateFirst, hp, List.find?_cons_of_neg _ (by simpa using hp)]
      exact ih hfind

theorem error_ne_of_ne {α : Type} {s1 s2 : String} (h : s1 ≠ s2) :
    (Except.error s1 : Except String α) ≠ Except.error s2 := by
  intro hcontra
  injection hcontra with h2
  exact h h2

theorem ok_ne_error {α : Type} (x : α) (s : String) :
    (Except.ok x : Except String α) ≠ Except.error s :=
  fun hcontra => Except.noConfusion hcontra

theorem slotMatches_setSlotBinding (s e : ClockTime) (date uid : Nat)
    (x : SlotDef) : slotMatches s e (setSlotBinding date uid x) = slotMatches s e x :=
  rfl

theorem slotMatches_clearSlotBinding (s e : ClockTime) (x : SlotDef) :
    slotMatches s e (clearSlotBinding x) = slotMatches s e x :=
  rfl

theorem canBeCancelled_true_iff (b : Booking) (now : Int) :
    b.canBeCancelled now = true ↔
      (b.status ≠ BookingStatus.cancelled ∧ b.status ≠ BookingStatus.completed ∧
        120 ≤ slotStartInstant b - now) := by
  unfold Booking.canBeCancelled
  by_cases h : b.status = BookingStatus.cancelled ∨ b.status = BookingStatus.completed
  · rcases h with h | h <;> simp [h]
  · push_neg at h
    simp [h.1, h.2]

theorem cancelBooking_isOk (b : Booking) (now : Int) (actor : Nat)
    (reason : String) :
    (b.cancelBooking now actor reason).isOk = b.canBeCancelled now := by
  unfold Booking.cancelBooking
  by_cases h : b.canBeCancelled now = true
  · simp [h, Except.isOk, Except.toBool]
  · simp [Bool.not_eq_true] at h
    simp [h, Except.isOk, Except.toBool]

theorem applyPayEvent_fst_paid (b : Booking) (ev : PayEvent) :
    ((applyPayEvent b ev).1).paymentStatus = PaymentStatus.paid := by
  cases ev with
  | verifyCall now ue o p s =>
    simp [applyPayEvent, verifyPayment, preValidate_paymentStatus]
  | captured now pid =>
    by_cases h : b.paymentStatus = PaymentStatus.paid
    · simp [applyPayEvent, handlePaymentCaptured, h]
    · simp [applyPayEvent, handlePaymentCaptured, h, preValidate_paymentStatus]

theorem applyPayEvent_snd_of_paid (b : Booking) (ev : PayEvent)
    (h : b.paymentStatus = PaymentStatus.paid) :
    (applyPayEvent b ev).2 = false := by
  cases ev with
  | verifyCall now ue o p s =>
    simp [applyPayEvent, verifyPayment, h]
  | captured now pid =>
    simp [applyPayEvent, handlePaymentCaptured, h]

theorem runPayEvents_snd_of_paid (evs : List PayEvent) (b : Booking)
    (h : b.paymentStatus = PaymentStatus.paid) :
    (runPayEvents b evs).2 = 0 := by
  induction evs generalizing b with
  | nil => rfl
  | cons ev rest ih =>
    simp [runPayEvents, applyPayEvent_snd_of_paid b ev h,
      ih (applyPayEvent b ev).1 (applyPayEvent_fst_paid b ev)]

theorem sweepGo_abort (now : Int) (saveOk emailOk : Nat → Bool) :
    ∀ (bs : List Booking) (k i : Nat) (b : Booking),
      bs.get? i = some b → needsStatusSave now b →
      (∀ j, j < i → saveOk (k + j) = true) → saveOk (k + i) = false →
      (sweepGo now saveOk emailOk k bs).1.drop i = bs.drop i ∧
        (sweepGo now saveOk emailOk k bs).2 = true := by
  intro bs
  induction bs with
  | nil =>
    intro k i b hb
    simp at hb
  | cons b0 rest ih =>
    intro k i b hb hneed hbefore hfail
    cases i with
    | zero =>
      have hb0 : b0 = b := by
        simp only [List.get?] at hb
        injection hb
      subst hb0
      have hfk : saveOk k = false := by simpa using hfail
      rcases hneed with ⟨hcand, hbranch⟩
      rcases hbranch with h1 | h2
      · simp [sweepGo, hcand, h1.1, h1.2.1, h1.2.2, hfk]
      · have hnotlt : ¬ now < slotEndInstant b0 := not_lt.mpr (le_of_lt h2.1)
        simp [sweepGo, hcand, hnotlt, h2.1, h2.2, hfk]
    | succ i2 =>
      have hb2 : rest.get? i2 = some b := hb
      have hsk : saveOk k = true := by
        have := hbefore 0 (Nat.succ_pos i2)
        simpa using this
      have hbefore2 : ∀ j, j < i2 → saveOk (k + 1 + j) = true := by
        intro j hj
        have := hbefore (j + 1) (Nat.succ_lt_succ hj)
        simpa [Nat.add_comm, Nat.add_assoc, Nat.add_left_comm] using this
      have hfail2 : saveOk (k + 1 + i2) = false := by
        simpa [Nat.add_comm, Nat.add_assoc, Nat.add_left_comm] using hfail
      have ihr := ih (k + 1) i2 b hb2 hneed hbefore2 hfail2
      by_cases hcand : sweepCandidate b0 = true
      · by_cases hc1 : slotStartInstant b0 ≤ now ∧ now < slotEndInstant b0 ∧
            b0.status ≠ BookingStatus.in_progress
        · simp [sweepGo, hcand, hc1.1, hc1.2.1, hc1.2.2, hsk]
          exact ihr
        · by_cases hc2 : slotEndInstant b0 < now ∧ b0.status ≠ BookingStatus.completed
          · simp [sweepGo, hcand, hc1, hc2.1, hc2.2, hsk]
            exact ihr
          · simp [sweepGo, hcand, hc1, hc2]
            exact ihr
      · simp [sweepGo, hcand]
        exact ihr

/-
Claim theorems.
-/

/-- C5: for every booking whose startTime, endTime and pricePerHour are
present (and whose time strings parse), after the pre-validate hook runs,
duration is the wall-clock minute difference of the parsed end and start
times and totalAmount = (duration/60) * pricePerHour; this recomputation is
the pre-validate hook itself (so it runs before the schema validators on
every save), and hand-set values of the two derived fields are simply
overwritten: they have no effect on the validated document. -/
theorem c5_amount_derivation (b : Booking) (s e : Int)
    (hs : jsDateMinutes b.startTime = some s)
    (he : jsDateMinutes b.endTime = some e) :
    (preValidate b).duration = (e : Rat) - (s : Rat) ∧
    (preValidate b).totalAmount = ((preValidate b).duration / 60) * b.pricePerHour ∧
    ∀ d0 a0 : Rat,
      preValidate { b with duration := d0, totalAmount := a0 } = preValidate b := by
  refine ⟨?_, ?_, ?_⟩ <;> simp [preValidate, hs, he]

/-- C5 witness: the derivation evaluated on a concrete stored booking. -/
theorem c5_amount_derivation_witness :
    (preValidate bk0).duration = (660 : Rat) - 600 ∧
    (preValidate bk0).totalAmount = ((preValidate bk0).duration / 60) * bk0.pricePerHour ∧
    ∀ d0 a0 : Rat,
      preValidate { bk0 with duration := d0, totalAmount := a0 } = preValidate bk0 :=
  c5_amount_derivation bk0 600 660 (by decide) (by decide)

/-- C6 counterexample: a no-show booking (a terminal state outside
{confirmed, in_progress}) whose start is more than two hours away is
accepted by the cancellation path, so success is not restricted to
confirmed and in_progress as the claim states. -/
theorem c6_cx_noshow_cancellable :
    bkNoShow.status = BookingStatus.noShow ∧
    bkNoShow.status ≠ BookingStatus.confirmed ∧
    bkNoShow.status ≠ BookingStatus.in_progress ∧
    120 ≤ slotStartInstant bkNoShow - 0 ∧
    (Booking.cancelBooking bkNoShow 0 1 "late").isOk = true := by
  refine ⟨rfl, by decide, by decide, by decide, by decide⟩

/-- C6 (amended): CancelBooking succeeds iff the status is neither
cancelled nor completed (so pending and no-show bookings are also
cancellable) and the slot start instant is at least 2 hours after now;
otherwise it throws the cannot-be-cancelled error, and on success the
cancellation fields are stamped. -/
theorem c6_cancel_policy (b : Booking) (now : Int) (actor : Nat)
    (reason : String) :
    ((b.cancelBooking now actor reason).isOk = true ↔
      (b.status ≠ BookingStatus.cancelled ∧ b.status ≠ BookingStatus.completed ∧
        120 ≤ slotStartInstant b - now)) ∧
    (b.canBeCancelled now = false →
      b.cancelBooking now actor reason = Except.error "Booking cannot be cancelled") ∧
    (∀ b2, b.cancelBooking now actor reason = Except.ok b2 →
      b2.status = BookingStatus.cancelled ∧ b2.cancelledAt = some now ∧
        b2.cancelledBy = some actor) := by
  refine ⟨?_, ?_, ?_⟩
  · rw [cancelBooking_isOk]
    exact canBeCancelled_true_iff b now
  · intro h
    unfold Booking.cancelBooking
    simp [h]
  · intro b2 h
    unfold Booking.cancelBooking at h
    by_cases hc : b.canBeCancelled now = true
    · simp only [hc, if_true] at h
      have h2 := h
      injection h2 with h3
      rw [← h3]
      simp [preValidate_status, preValidate_cancelledAt, preValidate_cancelledBy]
    · simp [Bool.not_eq_true] at hc
      simp [hc] at h

/-- C6 witness: the amended success condition evaluated on a concrete
booking far from its start. -/
theorem c6_cancel_policy_witness :
    (Booking.cancelBooking bk0 0 1 "w").isOk = true :=
  ((c6_cancel_policy bk0 0 1 "w").1).mpr (by decide)

/-- C3: evaluation of the check-in operation on a booking in the terminal
cancelled state: the code accepts it and moves the status back to
in_progress, leaving a terminal state, because the current status is never
consulted. -/
theorem c3_checkin_leaves_terminal :
    bkCancelled.status = BookingStatus.cancelled ∧
    checkInBooking [bkCancelled] 1 1234 none none =
      Except.ok (preValidate { bkCancelled with status := BookingStatus.in_progress }) ∧
    (preValidate { bkCancelled with status := BookingStatus.in_progress }).status =
      BookingStatus.in_progress := by
  refine ⟨rfl, by with_unfolding_all rfl, by rw [preValidate_status]⟩

/-- C4 counterexample: two verify deliveries for the same order at
instants 100 and 200: the second one re-stamps paidAt (some 200 instead of
the original some 100), so paidAt is not stamped exactly once as the claim
states; only the duplicate confirmation email is suppressed. -/
theorem c4_cx_verify_restamps :
    c4v1.1.paymentStatus = PaymentStatus.paid ∧
    c4v1.1.paidAt = some 100 ∧ c4v1.2 = true ∧
    c4v2.1.paidAt = some 200 ∧ c4v2.1.paidAt ≠ c4v1.1.paidAt ∧
    c4v2.2 = false := by
  refine ⟨by decide, by decide, by decide, by decide, by decide, by decide⟩

/-- C4 (amended): the payment.captured webhook applied to an already-paid
booking is a strict no-op with no notification; a verify call on an
already-paid booking sends no duplicate notification and leaves the status
paid, but re-stamps paidAt with the new time (and re-saves the payment
fields); and across any sequence of verify/webhook deliveries at most one
confirmation notification is sent. -/
theorem c4_payment_idempotence :
    (∀ (now : Int) (pid : Nat) (b : Booking),
      b.paymentStatus = PaymentStatus.paid →
      handlePaymentCaptured now pid b = (b, false)) ∧
    (∀ (now : Int) (ue : Bool) (o p sg : Nat) (b b2 : Booking) (sent : Bool),
      b.paymentStatus = PaymentStatus.paid →
      verifyPayment true now ue o p sg b = Except.ok (b2, sent) →
      sent = false ∧ b2.paymentStatus = PaymentStatus.paid ∧ b2.paidAt = some now) ∧
    (∀ (b : Booking) (evs : List PayEvent), (runPayEvents b evs).2 ≤ 1) := by
  refine ⟨?_, ?_, ?_⟩
  · intro now pid b h
    simp [handlePaymentCaptured, h]
  · intro now ue o p sg b b2 sent h hv
    unfold verifyPayment at hv
    simp only [Bool.not_true, Bool.false_eq_true, if_false] at hv
    injection hv with hv2
    have hb2 : b2 = preValidate
        { b with
            paymentStatus := PaymentStatus.paid,
            paymentMethod := PaymentMethod.online,
            razorpayPaymentId := some p,
            razorpayOrderId := some o,
            razorpaySignature := some sg,
            paidAt := some now } := by
      have := congrArg Prod.fst hv2
      simpa using this.symm
    have hsent : sent = (!(decide (b.paymentStatus = PaymentStatus.paid)) && ue) := by
      have := congrArg Prod.snd hv2
      simpa using this.symm
    refine ⟨?_, ?_, ?_⟩
    · rw [hsent, h]
      simp
    · rw [hb2, preValidate_paymentStatus]
    · rw [hb2, preValidate_paidAt]
  · intro b evs
    cases evs with
    | nil => simp [runPayEvents]
    | cons ev rest =>
      have h0 : (runPayEvents (applyPayEvent b ev).1 rest).2 = 0 :=
        runPayEvents_snd_of_paid rest _ (applyPayEvent_fst_paid b ev)
      simp only [runPayEvents, h0]
      cases (applyPayEvent b ev).2 <;> simp

/-- C4 witness: the no-op and the at-most-one-email bound evaluated on
concrete bookings and a concrete duplicated-webhook sequence. -/
theorem c4_payment_idempotence_witness :
    handlePaymentCaptured 300 9 bkPaid = (bkPaid, false) ∧
    (runPayEvents bk0 [PayEvent.captured 100 5, PayEvent.captured 200 6]).2 ≤ 1 :=
  ⟨c4_payment_idempotence.1 300 9 bkPaid rfl,
   c4_payment_idempotence.2.2 bk0 [PayEvent.captured 100 5, PayEvent.captured 200 6]⟩

/-- C10 counterexample: an overnight range (endTime parses 60 minutes
before startTime) with pricePerHour = 0 (allowed by the schema, whose only
price constraint is non-negativity): the derived totalAmount is 0, not
negative, and creation passes validation and persists the booking. -/
theorem c10_cx_zero_price_overnight :
    jsDateMinutes bkOvernight0.startTime = some 600 ∧
    jsDateMinutes bkOvernight0.endTime = some 540 ∧
    (preValidate bkOvernight0).totalAmount = 0 ∧
    createValidates bkOvernight0 = some (preValidate bkOvernight0) := by
  refine ⟨by decide, by decide, by with_unfolding_all rfl, by with_unfolding_all rfl⟩

/-- C10 (amended): when the end time parses strictly earlier than the start
time and pricePerHour is strictly positive, the derived totalAmount is
negative and creation fails the non-negativity validator (with price 0 the
amount is 0 and creation succeeds); when the two times are equal, creation
passes validation with duration 0 and totalAmount 0. -/
theorem c10_overnight_validation (b : Booking) (s e : Int)
    (hs : jsDateMinutes b.startTime = some s)
    (he : jsDateMinutes b.endTime = some e)
    (hpa : 0 ≤ b.paymentAmount) :
    (e < s → 0 < b.pricePerHour →
      (preValidate b).totalAmount < 0 ∧ createValidates b = none) ∧
    (e = s → 0 ≤ b.pricePerHour →
      (preValidate b).duration = 0 ∧ (preValidate b).totalAmount = 0 ∧
        createValidates b = some (preValidate b)) := by
  have hpb : preValidate b =
      { b with
          duration := (e : Rat) - (s : Rat),
          totalAmount := (((e : Rat) - (s : Rat)) / 60) * b.pricePerHour } := by
    simp [preValidate, hs, he]
  constructor
  · intro hlt hpos
    have hneg : ((e : Rat) - (s : Rat)) < 0 := by
      have hcast : (e : Rat) < (s : Rat) := by exact_mod_cast hlt
      linarith
    have hta : (preValidate b).totalAmount < 0 := by
      rw [hpb]
      exact mul_neg_of_neg_of_pos
        (div_neg_of_neg_of_pos hneg (by norm_num)) hpos
    refine ⟨hta, ?_⟩
    have hno : ¬ (0 : Rat) ≤ (preValidate b).totalAmount := not_le.mpr hta
    simp [createValidates, bookingValidates, hno]
  · intro heq hp0
    subst heq
    have hd : (preValidate b).duration = 0 := by rw [hpb]; simp
    have ht : (preValidate b).totalAmount = 0 := by rw [hpb]; simp
    refine ⟨hd, ht, ?_⟩
    have hpp : (preValidate b).pricePerHour = b.pricePerHour := preValidate_pricePerHour b
    have hppa : (preValidate b).paymentAmount = b.paymentAmount := by
      rw [hpb]
    simp [createValidates, bookingValidates, ht, hpp, hppa, hp0, hpa]

/-- C10 witness: the negative branch evaluated on a concrete overnight
booking with positive price. -/
theorem c10_overnight_validation_witness :
    (preValidate bkOvernight5).totalAmount < 0 ∧ createValidates bkOvernight5 = none :=
  (c10_overnight_validation bkOvernight5 600 540 (by decide) (by decide)
      (of_decide_eq_true (by with_unfolding_all rfl))).1
    (by decide) (of_decide_eq_true (by with_unfolding_all rfl))

/-- C8 counterexample: with the Monday template slot bound to day 15, the
release call for day 8 throws a No-booking-found error; it is not the
silent no-op the claim describes. -/
theorem c8_cx_release_mismatch_errors :
    turfBound15.cancelSlotBooking 8 1 ⟨18, 0, none⟩ ⟨19, 0, none⟩ =
      Except.error "No booking found for this slot on this date" := by
  with_unfolding_all rfl

/-- C8 (amended): Release clears the template slot binding exactly when the
slot is currently bound (isBooked) with a bound date equal to the given
date; when the bound date differs or no binding exists it throws the
No-booking-found error instead of being a silent no-op, so a stale
cancellation still cannot release a newer binding (it fails loudly). -/
theorem c8_release_policy (t : Turf) (date day : Nat) (s e : ClockTime)
    (ds : DaySlots) (sl : SlotDef)
    (hds : t.getDay day = some ds)
    (hsl : ds.slots.find? (slotMatches s e) = some sl) :
    (¬ (sl.isBooked = true ∧ sl.bookingDate = some date) →
      t.cancelSlotBooking date day s e =
        Except.error "No booking found for this slot on this date") ∧
    (sl.isBooked = true ∧ sl.bookingDate = some date →
      t.cancelSlotBooking date day s e =
        Except.ok (t.setDay day
          { ds with slots := updateFirst (slotMatches s e) clearSlotBinding ds.slots })) := by
  constructor
  · intro h
    have hcond : (!sl.isBooked ∨ sl.bookingDate = none ∨ sl.bookingDate ≠ some date) := by
      by_cases hib : sl.isBooked = true
      · right
        by_cases hbd : sl.bookingDate = some date
        · exact absurd ⟨hib, hbd⟩ h
        · right
          exact hbd
      · left
        simp [Bool.not_eq_true] at hib
        simp [hib]
    unfold Turf.cancelSlotBooking
    simp only [hds, hsl]
    rw [if_pos hcond]
  · intro h
    have hcond : ¬ (!sl.isBooked ∨ sl.bookingDate = none ∨ sl.bookingDate ≠ some date) := by
      simp [h.1, h.2]
    unfold Turf.cancelSlotBooking
    simp only [hds, hsl]
    rw [if_neg hcond]

/-- C8 witness: both branches of the release policy evaluated against the
turf whose Monday slot is bound to day 15. -/
theorem c8_release_policy_witness :
    turfBound15.cancelSlotBooking 9 1 ⟨18, 0, none⟩ ⟨19, 0, none⟩ =
      Except.error "No booking found for this slot on this date" ∧
    turfBound15.cancelSlotBooking 15 1 ⟨18, 0, none⟩ ⟨19, 0, none⟩ =
      Except.ok (turfBound15.setDay 1
        { dsBound15 with
            slots := updateFirst (slotMatches ⟨18, 0, none⟩ ⟨19, 0, none⟩)
              clearSlotBinding dsBound15.slots }) :=
  ⟨(c8_release_policy turfBound15 9 1 ⟨18, 0, none⟩ ⟨19, 0, none⟩ dsBound15 slBound15
      rfl rfl).1 (by decide),
   (c8_release_policy turfBound15 15 1 ⟨18, 0, none⟩ ⟨19, 0, none⟩ dsBound15 slBound15
      rfl rfl).2 (by decide)⟩

/-- C1: the interleaved execution of two concurrent createBooking calls on
the same (resource, date, startTime, endTime) tuple in which both requests
load the turf before either commits: both calls succeed and the ledger ends
up with two non-cancelled bookings for the tuple — the code has no storage
level uniqueness constraint or atomic claim, so the at-most-one-winner
guarantee fails. -/
theorem c1_race_double_booking :
    c1raceOut.2.1.isOk = true ∧ c1raceOut.2.2.isOk = true ∧
    activeBookingsFor c1raceOut.1 reqMon8 = 2 := by
  refine ⟨?_, ?_, ?_⟩ <;> with_unfolding_all rfl

/-- C2 counterexample: book the Monday slot for day 8, then book the same
template slot for day 15 (which overwrites the denormalized binding); a
non-cancelled booking for day 8 still exists in the ledger, yet the
availability check for day 8 answers true — availability tracks only the
per-template binding flag, not the set of non-cancelled bookings. -/
theorem c2_cx_stale_binding :
    (createBookingOnline sampleDB nowTue2 7 true PaymentMethod.online reqMon8).2.isOk = true ∧
    (createBookingOnline c2db1 nowTue2 9 true PaymentMethod.online reqMon15).2.isOk = true ∧
    0 < activeBookingsFor c2db2 reqMon8 ∧
    c2db2.turf.isSlotAvailable 8 (weekdayOfDate 8) reqMon8.startTime reqMon8.endTime = true := by
  refine ⟨?_, ?_, of_decide_eq_true ?_, ?_⟩ <;> with_unfolding_all rfl

/-- C2 (amended): the availability check reflects the slot binding rather
than the ledger: immediately after a successful bookSlot for (date, s, e)
the single-slot check for that date returns false, and after a successful
release of that binding it returns true again. -/
theorem c2_availability_after_book_cancel (t t1 : Turf) (date day : Nat)
    (s e : ClockTime) (uid : Nat)
    (hbook : t.bookSlot date day s e uid = Except.ok t1) :
    t1.isSlotAvailable date day s e = false ∧
    (∀ t2, t1.cancelSlotBooking date day s e = Except.ok t2 →
      t2.isSlotAvailable date day s e = true) := by
  unfold Turf.bookSlot at hbook
  cases hds : t.getDay day with
  | none =>
    simp only [hds] at hbook
    exact Except.noConfusion hbook
  | some ds =>
    simp only [hds] at hbook
    by_cases hopen : ds.isOpen = true
    · rw [if_neg (by simp [hopen])] at hbook
      cases hsl : ds.slots.find? (slotMatches s e) with
      | none =>
        simp only [hsl] at hbook
        exact Except.noConfusion hbook
      | some sl =>
        simp only [hsl] at hbook
        by_cases hbound : sl.isBooked = true ∧ sl.bookingDate = some date
        · rw [if_pos hbound] at hbook
          exact Except.noConfusion hbook
        · rw [if_neg hbound] at hbook
          injection hbook with hbook1
          have hwk : t.week.get? day = some ds := hds
          have hget1 : t1.getDay day = some
              { ds with slots := updateFirst (slotMatches s e) (setSlotBinding date uid) ds.slots } := by
            rw [← hbook1]
            exact get?_set_of_get?_some t.week day _ ds hwk
          have hpsl : slotMatches s e sl = true := List.find?_some hsl
          have hfind1 : (updateFirst (slotMatches s e) (setSlotBinding date uid) ds.slots).find?
              (slotMatches s e) = some (setSlotBinding date uid sl) :=
            find?_updateFirst _ _ _ _ hsl
              (by rw [slotMatches_setSlotBinding]; exact hpsl)
          constructor
          · unfold Turf.isSlotAvailable
            simp [hget1, hopen, hfind1, setSlotBinding]
          · intro t2 hc
            unfold Turf.cancelSlotBooking at hc
            simp only [hget1] at hc
            simp only [hfind1] at hc
            rw [if_neg (by simp [setSlotBinding])] at hc
            injection hc with hc1
            have hwk1 : t1.week.get? day = some
                { ds with slots := updateFirst (slotMatches s e) (setSlotBinding date uid) ds.slots } :=
              hget1
            have hget2 : t2.getDay day = some
                { ds with slots := (updateFirst (slotMatches s e) clearSlotBinding
                    (updateFirst (slotMatches s e) (setSlotBinding date uid) ds.slots)) } := by
              rw [← hc1]
              exact get?_set_of_get?_some t1.week day _ _ hwk1
            have hfind2 : (updateFirst (slotMatches s e) clearSlotBinding
                (updateFirst (slotMatches s e) (setSlotBinding date uid) ds.slots)).find?
                (slotMatches s e) = some (clearSlotBinding (setSlotBinding date uid sl)) :=
              find?_updateFirst _ _ _ _ hfind1
                (by rw [slotMatches_clearSlotBinding, slotMatches_setSlotBinding]; exact hpsl)
            unfold Turf.isSlotAvailable
            simp [hget2, hopen, hfind2, clearSlotBinding]
    · simp only [Bool.not_eq_true] at hopen
      simp [hopen] at hbook

/-- C2 witness: the book-then-release round trip evaluated on the sample
turf and its Monday slot for day 8. -/
theorem c2_availability_after_book_cancel_witness :
    turfAfterBook8.isSlotAvailable 8 1 ⟨18, 0, none⟩ ⟨19, 0, none⟩ = false :=
  (c2_availability_after_book_cancel sampleTurf turfAfterBook8 8 1
    ⟨18, 0, none⟩ ⟨19, 0, none⟩ 0 rfl).1

/-- C7 counterexample: an online customer booking for yesterday (day 8,
with now on day 9) passes every check and succeeds, so online bookings are
not restricted to non-past dates: the only time filter is the
today-and-already-started one. -/
theorem c7_cx_online_past_date :
    reqMon8.date < nowWed9.date ∧
    (createBookingOnline sampleDB nowWed9 7 true PaymentMethod.online reqMon8).2.isOk = true := by
  refine ⟨by decide, by with_unfolding_all rfl⟩

/-- C7 (amended): the owner walk-in path rejects every request whose date
is not today before any other check, regardless of slot availability; the
online path performs no past-date rejection at all — its passed-slot error
can only fire when the requested date is today, so any other past date
proceeds to the availability checks. -/
theorem c7_date_policy (db : DB) (now : Now) (u : Nat) (ce ue : Bool)
    (pa : Option Rat) (m : PaymentMethod) (q : BookingReq)
    (hpast : q.date ≠ now.date) :
    bookSlotOffline db now u ce pa q =
      (db, Except.error "Offline bookings are allowed only for today") ∧
    onlineCheck db.turf now u ue m q ≠
      Except.error "Cannot book slots that have already passed" := by
  constructor
  · unfold bookSlotOffline
    rw [if_pos hpast]
  · unfold onlineCheck
    cases hds : db.turf.getDay (weekdayOfDate q.date) with
    | none =>
      simp only [hds]
      exact error_ne_of_ne (by decide)
    | some ds =>
      simp only [hds]
      by_cases hopen : ds.isOpen = true
      · rw [if_neg (by simp [hopen])]
        cases hsl : ds.slots.find? (slotMatches q.startTime q.endTime) with
        | none =>
          simp only [hsl]
          exact error_ne_of_ne (by decide)
        | some sl =>
          simp only [hsl]
          rw [if_neg (fun hh => hpast hh.1)]
          by_cases hav : db.turf.isSlotAvailable q.date (weekdayOfDate q.date)
              q.startTime q.endTime = true
          · rw [if_neg (by simp [hav])]
            exact ok_ne_error _ _
          · rw [if_pos (by simp [Bool.not_eq_true] at hav; simp [hav])]
            exact error_ne_of_ne (by decide)
      · rw [if_pos (by simp [Bool.not_eq_true] at hopen; simp [hopen])]
        exact error_ne_of_ne (by decide)

/-- C7 witness: the policy evaluated at a concrete non-today request. -/
theorem c7_date_policy_witness :
    bookSlotOffline sampleDB nowTue2 1 true none reqMon8 =
      (sampleDB, Except.error "Offline bookings are allowed only for today") ∧
    onlineCheck sampleDB.turf nowTue2 1 true PaymentMethod.online reqMon8 ≠
      Except.error "Cannot book slots that have already passed" :=
  c7_date_policy sampleDB nowTue2 1 true true none PaymentMethod.online reqMon8 (by decide)

/-- C9 counterexample: two stored confirmed bookings both past their end
instant; the status save of the first one fails; the sweep run aborts with
both bookings unchanged, so the second eligible booking is not visited or
advanced in that sweep, contradicting the claim. -/
theorem c9_cx_abort_skips_rest :
    needsStatusSave 20000 bk0 ∧ needsStatusSave 20000 sweepB2 ∧
    c9run.1 = [bk0, sweepB2] ∧ c9run.2 = true ∧
    sweepB2.status = BookingStatus.confirmed := by
  refine ⟨⟨rfl, Or.inr ⟨by decide, by decide⟩⟩,
    ⟨rfl, Or.inr ⟨by decide, by decide⟩⟩, ?_, ?_, rfl⟩
  · with_unfolding_all rfl
  · with_unfolding_all rfl

/-- C9 (amended): when the status-update save of the candidate at position
i fails (all earlier saves succeeding), the sweep run aborts into the
sweep-level catch: the failing booking and every booking after it are left
exactly as stored in that run, whatever the review-email outcomes were. -/
theorem c9_sweep_abort_policy (now : Int) (saveOk emailOk : Nat → Bool)
    (bs : List Booking) (i : Nat) (b : Booking)
    (hb : bs.get? i = some b) (hneed : needsStatusSave now b)
    (hbefore : ∀ j, j < i → saveOk j = true) (hfail : saveOk i = false) :
    (sweepRun now saveOk emailOk bs).1.drop i = bs.drop i ∧
      (sweepRun now saveOk emailOk bs).2 = true := by
  have h := sweepGo_abort now saveOk emailOk bs 0 i b hb hneed
    (by intro j hj; simpa using hbefore j hj)
    (by simpa using hfail)
  simpa [sweepRun] using h

/-- C9 witness: the abort behaviour evaluated on the concrete two-booking
store with the first save failing. -/
theorem c9_sweep_abort_policy_witness :
    (sweepRun 20000 (fun i => decide (i ≠ 0)) (fun _ => true) [bk0, sweepB2]).1.drop 0 =
      [bk0, sweepB2].drop 0 ∧
    (sweepRun 20000 (fun i => decide (i ≠ 0)) (fun _ => true) [bk0, sweepB2]).2 = true :=
  c9_sweep_abort_policy 20000 (fun i => decide (i ≠ 0)) (fun _ => true)
    [bk0, sweepB2] 0 bk0 rfl
    ⟨rfl, Or.inr ⟨by decide, by decide⟩⟩
    (fun j hj => absurd hj (Nat.not_lt_zero j)) (by decide)

end TurfBack

